import Mathlib

/-!
Verification development for the go-mcp repository (Python sources under
`src/bridge` and `src/python-client`).  The definitions below are a shallow
embedding of the Python code: functions are translated statement by
statement, stateful methods become explicit state-passing functions on a
record of the object's attributes, and the I/O effects that matter to the
specification (opening and closing the transport channel, closing the
session, sending protocol requests) are recorded in an explicit effect
trace.  Failure points of the asynchronous code (transport open failing,
the initialize handshake raising, a remote call timing out) are modelled
as an explicit outcome parameter of the corresponding operation.
-/

namespace GoMcp

/-- Transport kinds, translated from the `MCPTransport` enum in
`src/bridge/mcp_server.py` (the `mcp_types` module imported by the two
client files is not in the source tree; `mcp_server.py` declares the same
enum, and the spec's transport kind enum has the same two members). -/
inductive MCPTransport
| sse
| http
deriving DecidableEq, Repr

/-- Auth schemes, translated from the `MCPAuth` enum in
`src/bridge/mcp_server.py`.  Modelled from the spec: the `mcp_types`
module that `mcp_client.py` and `another_client.py` import is absent from
the source tree; the spec's scheme enum is {None, BearerToken, BasicAuth,
ApiKey} and `mcp_server.py` declares exactly the members below.
`mcp_client.py` refers to the BasicAuth member as `MCPAuth.basic_auth`
while `another_client.py` and `mcp_server.py` call it `basic`; both are
modelled by the single constructor `basic`. -/
inductive MCPAuth
| none
| api_key
| bearer_token
| basic
deriving DecidableEq, Repr

/-- UTF-8 encoding of a single code point, the model of Python's
`str.encode("utf-8")` applied character by character. -/
def utf8EncodeChar (n : Nat) : List Nat :=
  if n < 0x80 then [n]
  else if n < 0x800 then [0xC0 + n / 64, 0x80 + n % 64]
  else if n < 0x10000 then [0xE0 + n / 4096, 0x80 + n / 64 % 64, 0x80 + n % 64]
  else [0xF0 + n / 262144, 0x80 + n / 4096 % 64, 0x80 + n / 64 % 64, 0x80 + n % 64]

/-- Python's `s.encode("utf-8")` as a list of byte values. -/
def utf8Bytes (s : String) : List Nat :=
  s.toList.flatMap (fun c => utf8EncodeChar c.toNat)

/-- The base64 alphabet (RFC 4648), the table used by Python's
`base64.b64encode`. -/
def b64Alphabet : List Char :=
  "ABCDEFGHIJKLMNOPQRSTUVWXYZabcdefghijklmnopqrstuvwxyz0123456789+/".toList

/-- Character of the base64 alphabet at index `n` (`n < 64`). -/
def b64Char (n : Nat) : Char :=
  b64Alphabet.getD n 'A'

/-- Standard base64 encoding of a byte list with `=` padding, the model of
Python's `base64.b64encode`. -/
def b64encode : List Nat → List Char
  | [] => []
  | [a] => [b64Char (a / 4), b64Char (a % 4 * 16), '=', '=']
  | [a, b] => [b64Char (a / 4), b64Char (a % 4 * 16 + b / 16), b64Char (b % 16 * 4), '=']
  | a :: b :: c :: rest =>
      b64Char (a / 4) :: b64Char (a % 4 * 16 + b / 16) ::
      b64Char (b % 16 * 4 + c / 64) :: b64Char (c % 64) :: b64encode rest

/-- The expression `base64.b64encode(s.encode("utf-8")).decode()` used by
`to_basic_auth` in `src/bridge/another_client.py` and inlined in
`_get_auth_headers` of `src/bridge/mcp_client.py`. -/
def b64OfStr (s : String) : String :=
  String.mk (b64encode (utf8Bytes s))

/-- Python's `f"...{x}..."` rendering of an `Optional[str]`: `None` prints
as the string `None`. -/
def pyOptStr : Option String → String
  | Option.none => "None"
  | Option.some s => s

end GoMcp

namespace GoMcp.McpClientPy

/-- Translation of `MCPClient._get_auth_headers` from `src/bridge/mcp_client.py`
(lines 29-44): headers as an association list, keyed on the client's
`auth_type` and the `auth_passthrough` argument.  Python's
`if not auth_passthrough` is true for both `None` and the empty string. -/
def get_auth_headers (auth_type : Option MCPAuth) (auth_passthrough : Option String) :
    List (String × String) :=
  match auth_passthrough with
  | Option.none => []
  | Option.some v =>
    if v = "" then []
    else
      match auth_type with
      | Option.some MCPAuth.bearer_token => [("Authorization", "Bearer " ++ v)]
      | Option.some MCPAuth.basic => [("Authorization", "Basic " ++ b64OfStr v)]
      | Option.some MCPAuth.api_key => [("X-API-Key", v)]
      | _ => []

end GoMcp.McpClientPy

namespace GoMcp.McpServerPy

/-- JSON-like values, the envelope of tool input schemas declared by
`list_tools` in `src/bridge/mcp_server.py`. -/
inductive Json
| str (s : String)
| num (n : Int)
| bool (b : Bool)
| arr (l : List Json)
| obj (m : List (String × Json))

/-- Tool-call argument values.  The tools served by `mcp_server.py`
declare only string and number arguments, so argument values are
restricted to those two variants. -/
inductive JVal
| str (s : String)
| num (n : Int)
deriving DecidableEq, Repr

/-- Python's f-string rendering of an argument value: strings print
verbatim, integers with `str(int)`. -/
def pyVal : JVal → String
  | JVal.str s => s
  | JVal.num n => toString n

/-- Numeric reading of an argument value, used by the `add_numbers`
handler.  The handler’s arithmetic is modelled on integers; a non-numeric
argument would raise a `TypeError` in Python and is outside the modelled
behaviour (no tool schema or caller in the repository passes one). -/
def asNum : JVal → Int
  | JVal.num n => n
  | JVal.str _ => 0

/-- One content item of a tool result (`mcp.types` content union used by
`call_tool` in `src/bridge/mcp_server.py`; the server only ever produces
the text variant). -/
inductive Content
| text (s : String)
| image (data : List Nat) (mimeType : String)
| embeddedResource (uri : String) (data : String)
deriving DecidableEq, Repr

/-- A tool descriptor as declared by `list_tools` in
`src/bridge/mcp_server.py`. -/
structure Tool where
  name : String
  description : Option String
  inputSchema : Json

/-- The rendering of `datetime.now()` under the three `strftime` /
`isoformat` forms used by the `get_current_time` handler.  The wall clock
is an environmental input; the handler's format selection logic is
translated exactly. -/
structure Clock where
  short : String
  long : String
  iso : String

/-- Translation of `list_tools` from `src/bridge/mcp_server.py` (lines 71-122): the three
tools the server exposes, with their declared input schemas. -/
def list_tools : List Tool :=
  [ { name := "echo"
      description := Option.some "Echo back the provided message"
      inputSchema := Json.obj
        [ ("type", Json.str "object")
        , ("properties", Json.obj
            [ ("message", Json.obj
                [ ("type", Json.str "string")
                , ("description", Json.str "Message to echo back") ]) ])
        , ("required", Json.arr [Json.str "message"]) ] }
  , { name := "get_current_time"
      description := Option.some "Get the current time"
      inputSchema := Json.obj
        [ ("type", Json.str "object")
        , ("properties", Json.obj
            [ ("format", Json.obj
                [ ("type", Json.str "string")
                , ("description", Json.str "Format for the time (short, long, iso)")
                , ("enum", Json.arr [Json.str "short", Json.str "long", Json.str "iso"])
                , ("default", Json.str "short") ]) ]) ] }
  , { name := "add_numbers"
      description := Option.some "Add two numbers together"
      inputSchema := Json.obj
        [ ("type", Json.str "object")
        , ("properties", Json.obj
            [ ("a", Json.obj
                [ ("type", Json.str "number")
                , ("description", Json.str "First number") ])
            , ("b", Json.obj
                [ ("type", Json.str "number")
                , ("description", Json.str "Second number") ]) ])
        , ("required", Json.arr [Json.str "a", Json.str "b"]) ] } ]

/-- Translation of `call_tool` from `src/bridge/mcp_server.py` (lines 125-175): the
server's tool dispatch.  `arguments.get(k, d)` becomes an association-list
lookup with default; the unknown-tool branch raises
`ValueError(f"Unknown tool: name")`, modelled as `Except.error`. -/
def call_tool (clock : Clock) (name : String) (arguments : List (String × JVal)) :
    Except String (List Content) :=
  if name = "echo" then
    let message := (arguments.lookup "message").getD (JVal.str "")
    Except.ok [Content.text ("Echo: " ++ pyVal message)]
  else if name = "get_current_time" then
    let format_type := (arguments.lookup "format").getD (JVal.str "short")
    let time_str :=
      if format_type = JVal.str "short" then clock.short
      else if format_type = JVal.str "long" then clock.long
      else if format_type = JVal.str "iso" then clock.iso
      else clock.short
    Except.ok [Content.text time_str]
  else if name = "add_numbers" then
    let a := asNum ((arguments.lookup "a").getD (JVal.num 0))
    let b := asNum ((arguments.lookup "b").getD (JVal.num 0))
    let result := a + b
    Except.ok [Content.text
      ("The sum of " ++ toString a ++ " and " ++ toString b ++ " is " ++ toString result)]
  else
    Except.error ("Unknown tool: " ++ name)

end GoMcp.McpServerPy

namespace GoMcp.AnotherClientPy

open GoMcp.McpServerPy

/-- The transport constructor an open effect went through:
`sse_client` or `streamablehttp_client`. -/
inductive TransportKind
| sse
| streamableHttp
deriving DecidableEq, Repr

/-- Observable I/O effects of the client, recorded in emission order.
`openChannel` is a successful `__aenter__` of a transport context (it
carries the transport constructor used and the headers passed to it),
`closeChannel` an `__aexit__` call on an open transport context,
`closeSession` the session close attempt of `disconnect` respectively the
session context `__aexit__` of the client's own `__aexit__`, and the
`send*` effects are the protocol requests issued on the session. -/
inductive Effect
| openChannel (kind : TransportKind) (headers : List (String × String))
| closeChannel
| closeSession
| sendInitReq
| sendListTools
| sendCallTool (name : String)
deriving DecidableEq, Repr

/-- The error surfaced by a client operation: `connectionError` models the
`ConnectionError` raised by `connect`, `pyException` any other uncaught
Python exception. -/
inductive PyErr
| connectionError (msg : String)
| pyException (msg : String)
deriving DecidableEq, Repr

/-- Where a `connect()` attempt fails, if anywhere.  `openFails`: the
transport context's `__aenter__` raises (or the surrounding
`asyncio.wait_for` times out) before a channel is open.  `streamsFail`:
the channel opened and `_context` was stored, but the returned read/write
streams are falsy (lines 93-94).  `initFails`: the channel opened and
`session.initialize()` raises or times out.  `ok`: every step succeeds. -/
inductive ConnectOutcome
| openFails
| streamsFail
| initFails
| ok
deriving DecidableEq, Repr

/-- Where an `__aenter__` attempt fails, if anywhere (the `__aenter__`
path has no stream check, so only two failure points exist there). -/
inductive AenterOutcome
| openFails
| initFails
| ok
deriving DecidableEq, Repr

/-- The mutable attributes of `MCPClient` from
`src/bridge/another_client.py` (`__init__`, lines 33-53), with the
handles reduced to their liveness: `sessionLive` is the truthiness of
`self._session`, `contextLive` whether `self._context` holds an open
transport context (the `connect()` path), `transportCtxLive` whether
`self._transport_ctx` holds an open transport context (the `__aenter__`
path), and the three stream fields the truthiness of
`self._read_stream` / `self._write_stream` / `self._get_session_id`. -/
structure MCPClient where
  server_url : String
  transport_type : MCPTransport
  auth_type : Option MCPAuth
  timeout : Nat
  mcp_auth_value : Option String
  sessionLive : Bool
  contextLive : Bool
  transportCtxLive : Bool
  readStream : Bool
  writeStream : Bool
  getSessionId : Bool
deriving DecidableEq, Repr

/-- Translation of `MCPClient.__init__` (defaults: HTTP transport, no auth type,
timeout 60.0): every handle starts out absent. -/
def mkClient (server_url : String) (transport_type : MCPTransport)
    (auth_type : Option MCPAuth) (auth_value : Option String) (timeout : Nat) :
    MCPClient :=
  { server_url := server_url
    transport_type := transport_type
    auth_type := auth_type
    timeout := timeout
    mcp_auth_value := auth_value
    sessionLive := false
    contextLive := false
    transportCtxLive := false
    readStream := false
    writeStream := false
    getSessionId := false }

/-- Translation of `to_basic_auth` from `src/bridge/another_client.py` (lines 20-22):
`base64.b64encode(auth_value.encode("utf-8")).decode()`. -/
def to_basic_auth (auth_value : String) : String :=
  b64OfStr auth_value

/-- Translation of `MCPClient._get_auth_headers` (lines 179-190): headers derived from
the stored `_mcp_auth_value` and the configured `auth_type`.  Note the
basic branch attaches the stored value directly (the base64 encoding
happens in `update_auth_value`, not here). -/
def get_auth_headers (c : MCPClient) : List (String × String) :=
  match c.mcp_auth_value with
  | Option.none => []
  | Option.some v =>
    if v = "" then []
    else
      match c.auth_type with
      | Option.some MCPAuth.bearer_token => [("Authorization", "Bearer " ++ v)]
      | Option.some MCPAuth.basic => [("Authorization", "Basic " ++ v)]
      | Option.some MCPAuth.api_key => [("X-API-Key", v)]
      | _ => []

/-- Translation of `MCPClient.update_auth_value` (lines 170-177): for BasicAuth the raw
value is converted with `to_basic_auth` before being stored, so the
stored `_mcp_auth_value` is the cached transmitted form. -/
def update_auth_value (c : MCPClient) (mcp_auth_value : String) : MCPClient :=
  { c with mcp_auth_value :=
      Option.some (if c.auth_type = Option.some MCPAuth.basic
        then to_basic_auth mcp_auth_value else mcp_auth_value) }

/-- Translation of `MCPClient.disconnect` (lines 150-168): close the session (exceptions
swallowed), exit the stored `_context` (exceptions swallowed), and clear
`_session`, `_context`, `_read_stream`, `_write_stream`,
`_get_session_id`.  The `__aenter__`-path attribute `_transport_ctx` is
not touched. -/
def disconnect (c : MCPClient) : MCPClient × List Effect :=
  ({ c with sessionLive := false, contextLive := false,
            readStream := false, writeStream := false, getSessionId := false },
   (if c.sessionLive then [Effect.closeSession] else [])
     ++ (if c.contextLive then [Effect.closeChannel] else []))

/-- The transport constructor `connect()` uses for each configured
transport type: `sse_client` for SSE (`_connect_sse`),
`streamablehttp_client` otherwise (`_connect_http`). -/
def chanKind : MCPTransport → TransportKind
  | MCPTransport.sse => TransportKind.sse
  | MCPTransport.http => TransportKind.streamableHttp

/-- Translation of `MCPClient.connect` (lines 75-105) together with its helpers
`_connect_sse` (107-120) and `_connect_http` (122-148).  If `_session` is
already truthy the method returns immediately.  Otherwise the selected
transport context is entered with the headers from `_get_auth_headers`;
on success `_context` and the streams are stored, a `ClientSession` is
constructed (assigned to `_session` before `initialize()` runs) and
initialized.  `asyncio.TimeoutError` and every other exception are caught,
`disconnect()` runs, and a `ConnectionError` is raised. -/
def connect (c : MCPClient) (o : ConnectOutcome) :
    MCPClient × List Effect × Option PyErr :=
  if c.sessionLive then (c, [], Option.none)
  else
    let hdrs := get_auth_headers c
    let kind := chanKind c.transport_type
    match o with
    | ConnectOutcome.openFails =>
        let (c1, effs) := disconnect c
        (c1, effs, Option.some (PyErr.connectionError "Failed to connect: open failed"))
    | ConnectOutcome.streamsFail =>
        let cOpen := { c with contextLive := true, readStream := false, writeStream := false }
        let (c1, effs) := disconnect cOpen
        (c1, Effect.openChannel kind hdrs :: effs,
         Option.some (PyErr.connectionError "Failed to connect: Failed to establish streams"))
    | ConnectOutcome.initFails =>
        let cOpen := { c with contextLive := true, readStream := true, writeStream := true,
                              getSessionId := c.transport_type = MCPTransport.http,
                              sessionLive := true }
        let (c1, effs) := disconnect cOpen
        (c1, Effect.openChannel kind hdrs :: Effect.sendInitReq :: effs,
         Option.some (PyErr.connectionError "Failed to connect: initialize failed"))
    | ConnectOutcome.ok =>
        ({ c with contextLive := true, readStream := true, writeStream := true,
                  getSessionId := c.transport_type = MCPTransport.http,
                  sessionLive := true },
         [Effect.openChannel kind hdrs, Effect.sendInitReq], Option.none)

end GoMcp.AnotherClientPy

namespace GoMcp.AnotherClientPy

open GoMcp.McpServerPy

/-- The value `MCPClient.list_tools` (lines 192-200) returns: the method
returns `result.tools` (the plain list) when that list is non-empty, and
otherwise falls through to `return result`, the whole `ListToolsResult`
object. -/
inductive ListToolsRet
| tools (ts : List Tool)
| resultObject (ts : List Tool)

/-- Translation of `MCPClient.list_tools` (lines 192-200).  `srv` is the tool list the
server reports on the wire.  If `_session` is falsy the method first runs
`connect()` (whose failure propagates); it then sends the list request
and applies the truthiness test described at `ListToolsRet`. -/
def list_tools (c : MCPClient) (o : ConnectOutcome) (srv : List Tool) :
    MCPClient × List Effect × Except PyErr ListToolsRet :=
  let (c1, effs, err) :=
    if c.sessionLive then (c, [], Option.none) else connect c o
  match err with
  | Option.some e => (c1, effs, Except.error e)
  | Option.none =>
      (c1, effs ++ [Effect.sendListTools],
       Except.ok (if srv.isEmpty then ListToolsRet.resultObject srv else ListToolsRet.tools srv))

/-- The value of a remote `session.call_tool` exchange as the `mcp`
library surfaces it to `MCPClient.call_tool`: either a
`CallToolResult` (content items plus the is-error flag) or a raised
exception (for example a timeout). -/
structure CallToolResult where
  content : List Content
  isError : Bool
deriving DecidableEq, Repr

/-- Translation of `MCPClient.call_tool` (lines 202-215).  `remote` is the outcome of the
`session.call_tool` exchange.  If `_session` is falsy the method first
runs `connect()` (whose failure propagates); it then sends the call
request and returns the remote outcome unchanged. -/
def call_tool (c : MCPClient) (o : ConnectOutcome) (name : String)
    (remote : Except PyErr CallToolResult) :
    MCPClient × List Effect × Except PyErr CallToolResult :=
  let (c1, effs, err) :=
    if c.sessionLive then (c, [], Option.none) else connect c o
  match err with
  | Option.some e => (c1, effs, Except.error e)
  | Option.none => (c1, effs ++ [Effect.sendCallTool name], remote)

/-- Translation of `MCPClient.__aenter__` (lines 55-66): unconditionally enters a
`streamablehttp_client` context with the single header
`Authorization: Bearer f-string(_mcp_auth_value)` — the configured
`transport_type` and `auth_type` are not consulted.  On success the
session context is entered (`_session` assigned) and `initialize()` runs.
An exception at any step propagates to the caller; nothing is torn
down inside `__aenter__` itself. -/
def aenter (c : MCPClient) (o : AenterOutcome) :
    MCPClient × List Effect × Option PyErr :=
  let hdrs := [("Authorization", "Bearer " ++ pyOptStr c.mcp_auth_value)]
  match o with
  | AenterOutcome.openFails =>
      (c, [], Option.some (PyErr.pyException "transport open failed"))
  | AenterOutcome.initFails =>
      ({ c with transportCtxLive := true, sessionLive := true },
       [Effect.openChannel TransportKind.streamableHttp hdrs, Effect.sendInitReq],
       Option.some (PyErr.pyException "initialize failed"))
  | AenterOutcome.ok =>
      ({ c with transportCtxLive := true, sessionLive := true },
       [Effect.openChannel TransportKind.streamableHttp hdrs, Effect.sendInitReq],
       Option.none)

/-- Translation of `MCPClient.__aexit__` (lines 68-73): exit the session context if
`_session` is truthy, then exit the transport context if `_transport_ctx`
is truthy.  The attributes are left assigned; the booleans of the model
track liveness, so both are cleared by the close calls. -/
def aexit (c : MCPClient) : MCPClient × List Effect :=
  ({ c with sessionLive := false, transportCtxLive := false },
   (if c.sessionLive then [Effect.closeSession] else [])
     ++ (if c.transportCtxLive then [Effect.closeChannel] else []))

/-- Python's `async with MCPClient(...)` protocol around `aenter` and
`aexit`: when `__aenter__` raises, the `with` body and `__aexit__` are
both skipped and the exception propagates; otherwise `__aexit__` runs on
scope exit. -/
def asyncWith (c : MCPClient) (o : AenterOutcome) :
    MCPClient × List Effect × Option PyErr :=
  match aenter c o with
  | (c1, effs, Option.some e) => (c1, effs, Option.some e)
  | (c1, effs, Option.none) =>
      let (c2, effs2) := aexit c1
      (c2, effs ++ effs2, Option.none)

/-- An operation of the client's `connect`/`disconnect`/`list_tools`/
`call_tool` interface, with the failure point of any connect attempt it
performs and the server-side data it observes. -/
inductive Op
| connect (o : ConnectOutcome)
| disconnect
| listTools (o : ConnectOutcome) (srv : List Tool)
| callTool (o : ConnectOutcome) (name : String) (remote : Except PyErr CallToolResult)

/-- One operation applied to a client state, keeping the state and the
emitted effects. -/
def step (c : MCPClient) : Op → MCPClient × List Effect
  | Op.connect o => ((connect c o).1, (connect c o).2.1)
  | Op.disconnect => disconnect c
  | Op.listTools o srv => ((list_tools c o srv).1, (list_tools c o srv).2.1)
  | Op.callTool o name remote => ((call_tool c o name remote).1, (call_tool c o name remote).2.1)

/-- A sequence of operations applied from a client state, with the
concatenated effect trace. -/
def run (c : MCPClient) : List Op → MCPClient × List Effect
  | [] => (c, [])
  | op :: ops =>
      ((run (step c op).1 ops).1, (step c op).2 ++ (run (step c op).1 ops).2)

/-- Channel balance of one effect: `+1` for a successful open, `-1` for a
close, `0` otherwise. -/
def chanDelta : Effect → Int
  | Effect.openChannel _ _ => 1
  | Effect.closeChannel => -1
  | _ => 0

/-- Net channel balance of an effect trace. -/
def chanNet (l : List Effect) : Int :=
  (l.map chanDelta).sum

/-- Starting from `n` currently open channels, checks that after every
effect of the trace the number of open channels stays between 0 and 1:
no close without a matching open, and never two channels open at once. -/
def boundedFrom (n : Int) : List Effect → Bool
  | [] => true
  | e :: rest =>
      let m := n + chanDelta e
      if 0 ≤ m ∧ m ≤ 1 then boundedFrom m rest else false

/-- Number of successful channel opens in a trace. -/
def countOpens (l : List Effect) : Nat :=
  (l.filter (fun e => match e with | Effect.openChannel _ _ => true | _ => false)).length

/-- Number of channel close calls in a trace. -/
def countCloses (l : List Effect) : Nat :=
  (l.filter (fun e => match e with | Effect.closeChannel => true | _ => false)).length

/-- Number of channels the client currently holds open. -/
def chanOf (c : MCPClient) : Int :=
  (if c.contextLive then 1 else 0) + (if c.transportCtxLive then 1 else 0)

end GoMcp.AnotherClientPy

namespace GoMcp.SessionModel

open GoMcp.McpServerPy

/-- Transport-level failure taxonomy (spec §7): raised while opening or
closing a channel. -/
inductive TransportError
| timeout
| connectionRefused
| protocolMismatch
| other (detail : String)
deriving DecidableEq, Repr

/-- Invocation failure taxonomy (spec §7): `toolFailed` carries the
server's message and is an expected, recoverable outcome. -/
inductive InvocationError
| timedOut
| toolFailed (serverMessage : String)
| unroutable
deriving DecidableEq, Repr

/-- Session lifecycle states (spec §3). -/
inductive SessionState
| unconnected
| connecting
| handshaking
| ready
| closing
| closed
| failed
deriving DecidableEq, Repr

/-- The possible outcomes of one tool invocation as seen by the caller. -/
inductive CallOutcome
| ok (result : List Content)
| invocation (e : InvocationError)
| transport (e : TransportError)
deriving DecidableEq, Repr

/-- Modelled from the spec: the ProtocolSession invocation layer lives in
the external `mcp` SDK (`ClientSession.call_tool`), which is not part of
the source tree.  Per spec §4.3 and §7, a server-reported tool error
(such as the `ValueError` the translated `McpServerPy.call_tool` raises
for an unknown tool name) surfaces to the caller as
`InvocationError{ToolFailed, serverMessage}` — data distinguishable from
a transport-level failure — and an invocation failure does not change the
session state. -/
def invoke_tool (clock : Clock) (st : SessionState) (name : String)
    (args : List (String × JVal)) : CallOutcome × SessionState :=
  match McpServerPy.call_tool clock name args with
  | Except.ok content => (CallOutcome.ok content, st)
  | Except.error msg => (CallOutcome.invocation (InvocationError.toolFailed msg), st)

end GoMcp.SessionModel

namespace GoMcp

lemma utf8EncodeChar_ne_nil (n : Nat) : utf8EncodeChar n ≠ [] := by
  unfold utf8EncodeChar
  split_ifs <;> simp

lemma string_toList_ne_nil {s : String} (h : s ≠ "") : s.toList ≠ [] := by
  intro hl
  apply h
  cases s with
  | mk data =>
    cases data with
    | nil => rfl
    | cons a l => simp [String.toList] at hl

lemma utf8Bytes_ne_nil {s : String} (h : s ≠ "") : utf8Bytes s ≠ [] := by
  unfold utf8Bytes
  cases hs : s.toList with
  | nil => exact absurd hs (string_toList_ne_nil h)
  | cons a l =>
    simp only [List.flatMap_cons]
    intro hc
    rcases List.append_eq_nil.mp hc with ⟨h1, _⟩
    exact utf8EncodeChar_ne_nil a.toNat h1

lemma b64encode_ne_nil {l : List Nat} (h : l ≠ []) : b64encode l ≠ [] := by
  match l with
  | [] => exact absurd rfl h
  | [a] => simp [b64encode]
  | [a, b] => simp [b64encode]
  | a :: b :: c :: rest => simp [b64encode]

lemma b64OfStr_ne_empty {s : String} (h : s ≠ "") : b64OfStr s ≠ "" := by
  unfold b64OfStr
  intro he
  apply b64encode_ne_nil (utf8Bytes_ne_nil h)
  have := congrArg String.data he
  simpa using this

end GoMcp

namespace GoMcp

open GoMcp.AnotherClientPy GoMcp.McpServerPy GoMcp.SessionModel

/-- C4: Auth header derivation is a pure function of scheme and
credential: BearerToken maps a non-empty raw value `v` to
`Authorization: Bearer v`, BasicAuth to `Authorization: Basic base64(v)`,
ApiKey to `X-API-Key: v`, and scheme None or an absent/empty raw value to
the empty mapping.  Stated for `mcp_client.py`'s `_get_auth_headers` for
every scheme, and for `another_client.py`'s `_get_auth_headers` (where the
BasicAuth encoding is performed by `update_auth_value` before the value is
stored). -/
theorem auth_header_derivation (v : String) (hv : v ≠ "") :
    McpClientPy.get_auth_headers (Option.some MCPAuth.bearer_token) (Option.some v)
      = [("Authorization", "Bearer " ++ v)] ∧
    McpClientPy.get_auth_headers (Option.some MCPAuth.basic) (Option.some v)
      = [("Authorization", "Basic " ++ b64OfStr v)] ∧
    McpClientPy.get_auth_headers (Option.some MCPAuth.api_key) (Option.some v)
      = [("X-API-Key", v)] ∧
    McpClientPy.get_auth_headers (Option.some MCPAuth.none) (Option.some v) = [] ∧
    McpClientPy.get_auth_headers Option.none (Option.some v) = [] ∧
    (∀ t, McpClientPy.get_auth_headers t Option.none = []) ∧
    (∀ t, McpClientPy.get_auth_headers t (Option.some "") = []) ∧
    (∀ c : MCPClient, c.auth_type = Option.some MCPAuth.bearer_token →
      c.mcp_auth_value = Option.some v →
      AnotherClientPy.get_auth_headers c = [("Authorization", "Bearer " ++ v)]) ∧
    (∀ c : MCPClient, c.auth_type = Option.some MCPAuth.api_key →
      c.mcp_auth_value = Option.some v →
      AnotherClientPy.get_auth_headers c = [("X-API-Key", v)]) ∧
    (∀ c : MCPClient, c.auth_type = Option.none →
      AnotherClientPy.get_auth_headers c = []) ∧
    (∀ c : MCPClient, c.auth_type = Option.some MCPAuth.basic →
      AnotherClientPy.get_auth_headers (update_auth_value c v)
        = [("Authorization", "Basic " ++ to_basic_auth v)]) := by
  refine ⟨?_, ?_, ?_, ?_, ?_, ?_, ?_, ?_, ?_, ?_, ?_⟩
  · simp [McpClientPy.get_auth_headers, hv]
  · simp [McpClientPy.get_auth_headers, hv]
  · simp [McpClientPy.get_auth_headers, hv]
  · simp [McpClientPy.get_auth_headers, hv]
  · simp [McpClientPy.get_auth_headers, hv]
  · intro t; simp [McpClientPy.get_auth_headers]
  · intro t; simp [McpClientPy.get_auth_headers]
  · intro c ht hval; simp [AnotherClientPy.get_auth_headers, ht, hval, hv]
  · intro c ht hval; simp [AnotherClientPy.get_auth_headers, ht, hval, hv]
  · intro c ht
    simp only [AnotherClientPy.get_auth_headers, ht]
    cases c.mcp_auth_value with
    | none => rfl
    | some w => by_cases hw : w = "" <;> simp [hw]
  · intro c ht
    have hne : to_basic_auth v ≠ "" := b64OfStr_ne_empty hv
    simp [AnotherClientPy.get_auth_headers, update_auth_value, ht, hne]

/-- Witness for C4 at the spec's own example inputs. -/
theorem auth_header_derivation_witness :
    McpClientPy.get_auth_headers (Option.some MCPAuth.bearer_token) (Option.some "tok123")
      = [("Authorization", "Bearer tok123")] :=
  (auth_header_derivation "tok123" (by decide)).1

/-- C5: for a BasicAuth credential the transmitted base64 form is derived
once by `update_auth_value` and cached in `_mcp_auth_value`; header
derivation attaches the cached transmitted form, and a later
`update_auth_value(w)` replaces the cache so every subsequent derivation
returns `Authorization: Basic base64(w)`. -/
theorem basic_auth_cached (c : MCPClient) (v w : String)
    (hb : c.auth_type = Option.some MCPAuth.basic) (hv : v ≠ "") (hw : w ≠ "") :
    (update_auth_value c v).mcp_auth_value = Option.some (to_basic_auth v) ∧
    AnotherClientPy.get_auth_headers (update_auth_value c v)
      = [("Authorization", "Basic " ++ to_basic_auth v)] ∧
    (update_auth_value (update_auth_value c v) w).mcp_auth_value
      = Option.some (to_basic_auth w) ∧
    AnotherClientPy.get_auth_headers (update_auth_value (update_auth_value c v) w)
      = [("Authorization", "Basic " ++ to_basic_auth w)] := by
  have hnv : to_basic_auth v ≠ "" := b64OfStr_ne_empty hv
  have hnw : to_basic_auth w ≠ "" := b64OfStr_ne_empty hw
  refine ⟨?_, ?_, ?_, ?_⟩
  · simp [update_auth_value, hb]
  · simp [AnotherClientPy.get_auth_headers, update_auth_value, hb, hnv]
  · simp [update_auth_value, hb]
  · simp [AnotherClientPy.get_auth_headers, update_auth_value, hb, hnw]

/-- Witness for C5 on a concrete BasicAuth client and the spec's example
credential, with the cached transmitted form evaluated. -/
theorem basic_auth_cached_witness :
    to_basic_auth "alice:secret" = "YWxpY2U6c2VjcmV0" ∧
    (update_auth_value
        (mkClient "http://localhost:3000/mcp" MCPTransport.http
          (Option.some MCPAuth.basic) Option.none 60) "alice:secret").mcp_auth_value
      = Option.some (to_basic_auth "alice:secret") ∧
    AnotherClientPy.get_auth_headers
        (update_auth_value
          (mkClient "http://localhost:3000/mcp" MCPTransport.http
            (Option.some MCPAuth.basic) Option.none 60) "alice:secret")
      = [("Authorization", "Basic " ++ to_basic_auth "alice:secret")] := by
  have h := basic_auth_cached
    (mkClient "http://localhost:3000/mcp" MCPTransport.http
      (Option.some MCPAuth.basic) Option.none 60) "alice:secret" "bob:pw"
    rfl (by decide) (by decide)
  exact ⟨by decide, h.1, h.2.1⟩

/-- C5 counterexample: at the empty raw value the claim fails as stated.
`update_auth_value("")` stores `base64("") = ""`, which is falsy, so the
subsequent header derivation returns the empty mapping rather than
`Authorization: Basic base64("")`. -/
theorem basic_auth_cached_empty_value_counterexample :
    AnotherClientPy.get_auth_headers
        (update_auth_value (mkClient "http://localhost:3000/mcp" MCPTransport.http
          (Option.some MCPAuth.basic) Option.none 60) "") = [] ∧
    ([] : List (String × String)) ≠ [("Authorization", "Basic " ++ to_basic_auth "")] := by
  exact ⟨rfl, by decide⟩

/-- C3: `disconnect` clears the session, transport context and stream
fields for every client state, and a second `disconnect` on the result
returns the same state with no further close effect (and, being a total
function whose close attempts swallow exceptions, it never raises). -/
theorem disconnect_idempotent (c : MCPClient) :
    (disconnect c).1.sessionLive = false ∧
    (disconnect c).1.contextLive = false ∧
    (disconnect c).1.readStream = false ∧
    (disconnect c).1.writeStream = false ∧
    (disconnect c).1.getSessionId = false ∧
    disconnect (disconnect c).1 = ((disconnect c).1, []) := by
  cases c
  simp [disconnect]

/-- C1 (defect evaluation): entering `async with MCPClient(...)` when the
transport opens successfully and `session.initialize()` then raises:
`__aenter__` propagates the exception, so Python never invokes
`__aexit__` and the opened channel receives zero close calls — one
successful open, zero closes.  The `connect()` path of the same class
shows the intended behaviour: the same failure point there yields one
open and one close. -/
theorem aenter_handshake_failure_leaks_channel :
    countOpens (asyncWith (mkClient "http://localhost:3000/mcp" MCPTransport.http
        (Option.some MCPAuth.bearer_token) (Option.some "sk-1234") 60)
        AenterOutcome.initFails).2.1 = 1 ∧
    countCloses (asyncWith (mkClient "http://localhost:3000/mcp" MCPTransport.http
        (Option.some MCPAuth.bearer_token) (Option.some "sk-1234") 60)
        AenterOutcome.initFails).2.1 = 0 ∧
    (asyncWith (mkClient "http://localhost:3000/mcp" MCPTransport.http
        (Option.some MCPAuth.bearer_token) (Option.some "sk-1234") 60)
        AenterOutcome.initFails).2.2
      = Option.some (PyErr.pyException "initialize failed") ∧
    countOpens (connect (mkClient "http://localhost:3000/mcp" MCPTransport.http
        (Option.some MCPAuth.bearer_token) (Option.some "sk-1234") 60)
        ConnectOutcome.initFails).2.1 = 1 ∧
    countCloses (connect (mkClient "http://localhost:3000/mcp" MCPTransport.http
        (Option.some MCPAuth.bearer_token) (Option.some "sk-1234") 60)
        ConnectOutcome.initFails).2.1 = 1 := by
  refine ⟨rfl, rfl, rfl, rfl, rfl⟩

/-- C2: when `connect()` fails at any step (transport open failing,
stream establishment failing, or initialize raising), the surfaced error
is a `ConnectionError`, the client is left with no live session, channel
or streams, and every channel opened during the attempt was closed
(closes equal opens in the emitted trace). -/
theorem connect_failure_teardown (c : MCPClient) (o : ConnectOutcome)
    (hs : c.sessionLive = false) (hc : c.contextLive = false)
    (ho : o ≠ ConnectOutcome.ok) :
    (∃ msg, (connect c o).2.2 = Option.some (PyErr.connectionError msg)) ∧
    (connect c o).1.sessionLive = false ∧
    (connect c o).1.contextLive = false ∧
    (connect c o).1.readStream = false ∧
    (connect c o).1.writeStream = false ∧
    (connect c o).1.getSessionId = false ∧
    countCloses (connect c o).2.1 = countOpens (connect c o).2.1 := by
  cases o with
  | openFails => simp [connect, disconnect, hs, hc, countCloses, countOpens]
  | streamsFail => simp [connect, disconnect, hs, hc, countCloses, countOpens]
  | initFails => simp [connect, disconnect, hs, hc, countCloses, countOpens]
  | ok => exact absurd rfl ho

/-- Witness for C2: a fresh client whose handshake fails. -/
theorem connect_failure_teardown_witness :
    (∃ msg, (connect (mkClient "http://localhost:3000/mcp" MCPTransport.http
        (Option.some MCPAuth.bearer_token) (Option.some "sk-1234") 60)
        ConnectOutcome.initFails).2.2 = Option.some (PyErr.connectionError msg)) ∧
    (connect (mkClient "http://localhost:3000/mcp" MCPTransport.http
        (Option.some MCPAuth.bearer_token) (Option.some "sk-1234") 60)
        ConnectOutcome.initFails).1.sessionLive = false ∧
    (connect (mkClient "http://localhost:3000/mcp" MCPTransport.http
        (Option.some MCPAuth.bearer_token) (Option.some "sk-1234") 60)
        ConnectOutcome.initFails).1.contextLive = false ∧
    (connect (mkClient "http://localhost:3000/mcp" MCPTransport.http
        (Option.some MCPAuth.bearer_token) (Option.some "sk-1234") 60)
        ConnectOutcome.initFails).1.readStream = false ∧
    (connect (mkClient "http://localhost:3000/mcp" MCPTransport.http
        (Option.some MCPAuth.bearer_token) (Option.some "sk-1234") 60)
        ConnectOutcome.initFails).1.writeStream = false ∧
    (connect (mkClient "http://localhost:3000/mcp" MCPTransport.http
        (Option.some MCPAuth.bearer_token) (Option.some "sk-1234") 60)
        ConnectOutcome.initFails).1.getSessionId = false ∧
    countCloses (connect (mkClient "http://localhost:3000/mcp" MCPTransport.http
        (Option.some MCPAuth.bearer_token) (Option.some "sk-1234") 60)
        ConnectOutcome.initFails).2.1
      = countOpens (connect (mkClient "http://localhost:3000/mcp" MCPTransport.http
        (Option.some MCPAuth.bearer_token) (Option.some "sk-1234") 60)
        ConnectOutcome.initFails).2.1 :=
  connect_failure_teardown _ ConnectOutcome.initFails rfl rfl (by decide)

/-- C10: `__aenter__` always opens a StreamableHTTP transport and always
passes the single header `Authorization: Bearer f-string(_mcp_auth_value)`
— for every configured `transport_type`, `auth_type` and stored auth
value, on both paths that reach the transport open. -/
theorem aenter_always_streamable_http_bearer (c : MCPClient) :
    ((aenter c AenterOutcome.ok).2.1.head?
      = Option.some (Effect.openChannel TransportKind.streamableHttp
          [("Authorization", "Bearer " ++ pyOptStr c.mcp_auth_value)])) ∧
    ((aenter c AenterOutcome.initFails).2.1.head?
      = Option.some (Effect.openChannel TransportKind.streamableHttp
          [("Authorization", "Bearer " ++ pyOptStr c.mcp_auth_value)])) := by
  exact ⟨rfl, rfl⟩

/-- C9: invoking a tool whose name is none of the server's three exposed
tools yields `InvocationError.toolFailed` carrying the server's
`Unknown tool: name` message, which is a different constructor from every
transport-level failure; the session state is unchanged and a subsequent
echo call on the same session still succeeds. -/
theorem unknown_tool_fails_recoverably (clock : Clock) (st : SessionState)
    (name : String) (args : List (String × JVal))
    (h : name ≠ "echo" ∧ name ≠ "get_current_time" ∧ name ≠ "add_numbers") :
    (invoke_tool clock st name args).1
      = CallOutcome.invocation (InvocationError.toolFailed ("Unknown tool: " ++ name)) ∧
    (∀ te, (invoke_tool clock st name args).1 ≠ CallOutcome.transport te) ∧
    (invoke_tool clock st name args).2 = st ∧
    (invoke_tool clock (invoke_tool clock st name args).2 "echo"
        [("message", JVal.str "hi")]).1 = CallOutcome.ok [Content.text "Echo: hi"] := by
  obtain ⟨h1, h2, h3⟩ := h
  refine ⟨?_, ?_, ?_, ?_⟩
  · simp [invoke_tool, McpServerPy.call_tool, h1, h2, h3]
  · intro te
    simp [invoke_tool, McpServerPy.call_tool, h1, h2, h3]
  · simp [invoke_tool, McpServerPy.call_tool, h1, h2, h3]
  · simp [invoke_tool, McpServerPy.call_tool, h1, h2, h3, pyVal]

/-- Witness for C9: `invokeTool("nope", omitted-message-args)` on a Ready
session of the test server. -/
theorem unknown_tool_fails_recoverably_witness :
    (invoke_tool { short := "12:00", long := "2025-01-01 12:00:00",
                   iso := "2025-01-01T12:00:00" } SessionState.ready "nope" []).1
      = CallOutcome.invocation (InvocationError.toolFailed "Unknown tool: nope") ∧
    (invoke_tool { short := "12:00", long := "2025-01-01 12:00:00",
                   iso := "2025-01-01T12:00:00" } SessionState.ready "nope" []).2
      = SessionState.ready := by
  have h := unknown_tool_fails_recoverably
    { short := "12:00", long := "2025-01-01 12:00:00", iso := "2025-01-01T12:00:00" }
    SessionState.ready "nope" [] (by refine ⟨by decide, by decide, by decide⟩)
  exact ⟨h.1, h.2.2.1⟩

/-- C7: `list_tools` and `call_tool` on a client with no live session do
not fail on the state check: they run `connect()` first (one channel
open, one initialize handshake) and then send the request; afterwards the
session is live and the call's result is the remote outcome. -/
theorem implicit_connect_then_proceed (c : MCPClient) (srv : List Tool)
    (name : String) (remote : Except PyErr CallToolResult)
    (h : c.sessionLive = false) :
    (list_tools c ConnectOutcome.ok srv).1.sessionLive = true ∧
    (list_tools c ConnectOutcome.ok srv).2.1
      = [Effect.openChannel (chanKind c.transport_type) (AnotherClientPy.get_auth_headers c),
         Effect.sendInitReq, Effect.sendListTools] ∧
    (call_tool c ConnectOutcome.ok name remote).1.sessionLive = true ∧
    (call_tool c ConnectOutcome.ok name remote).2.1
      = [Effect.openChannel (chanKind c.transport_type) (AnotherClientPy.get_auth_headers c),
         Effect.sendInitReq, Effect.sendCallTool name] ∧
    (call_tool c ConnectOutcome.ok name remote).2.2 = remote := by
  refine ⟨?_, ?_, ?_, ?_, ?_⟩ <;>
    simp [AnotherClientPy.list_tools, AnotherClientPy.call_tool, connect, h]

/-- Witness for C7: a freshly constructed, never-connected client lists
tools and calls `echo`. -/
theorem implicit_connect_then_proceed_witness :
    (list_tools (mkClient "http://localhost:3000/mcp" MCPTransport.http
        (Option.some MCPAuth.bearer_token) (Option.some "sk-1234") 60)
        ConnectOutcome.ok McpServerPy.list_tools).1.sessionLive = true ∧
    (list_tools (mkClient "http://localhost:3000/mcp" MCPTransport.http
        (Option.some MCPAuth.bearer_token) (Option.some "sk-1234") 60)
        ConnectOutcome.ok McpServerPy.list_tools).2.1
      = [Effect.openChannel
           (chanKind (mkClient "http://localhost:3000/mcp" MCPTransport.http
             (Option.some MCPAuth.bearer_token) (Option.some "sk-1234") 60).transport_type)
           (AnotherClientPy.get_auth_headers
             (mkClient "http://localhost:3000/mcp" MCPTransport.http
               (Option.some MCPAuth.bearer_token) (Option.some "sk-1234") 60)),
         Effect.sendInitReq, Effect.sendListTools] ∧
    (call_tool (mkClient "http://localhost:3000/mcp" MCPTransport.http
        (Option.some MCPAuth.bearer_token) (Option.some "sk-1234") 60)
        ConnectOutcome.ok "echo"
        (Except.ok { content := [Content.text "Echo: hi"], isError := false })).1.sessionLive
      = true ∧
    (call_tool (mkClient "http://localhost:3000/mcp" MCPTransport.http
        (Option.some MCPAuth.bearer_token) (Option.some "sk-1234") 60)
        ConnectOutcome.ok "echo"
        (Except.ok { content := [Content.text "Echo: hi"], isError := false })).2.1
      = [Effect.openChannel
           (chanKind (mkClient "http://localhost:3000/mcp" MCPTransport.http
             (Option.some MCPAuth.bearer_token) (Option.some "sk-1234") 60).transport_type)
           (AnotherClientPy.get_auth_headers
             (mkClient "http://localhost:3000/mcp" MCPTransport.http
               (Option.some MCPAuth.bearer_token) (Option.some "sk-1234") 60)),
         Effect.sendInitReq, Effect.sendCallTool "echo"] ∧
    (call_tool (mkClient "http://localhost:3000/mcp" MCPTransport.http
        (Option.some MCPAuth.bearer_token) (Option.some "sk-1234") 60)
        ConnectOutcome.ok "echo"
        (Except.ok { content := [Content.text "Echo: hi"], isError := false })).2.2
      = Except.ok { content := [Content.text "Echo: hi"], isError := false } :=
  implicit_connect_then_proceed _ McpServerPy.list_tools "echo"
    (Except.ok { content := [Content.text "Echo: hi"], isError := false }) rfl

/-- C8 (defect evaluation): on a connected client, `list_tools` with a
server reporting zero tools returns the whole `ListToolsResult` object
(the `return result` fall-through), not the empty tool list that the
method's own `List[MCPTool]` annotation promises; with a non-empty server
report it returns exactly that sequence. -/
theorem list_tools_zero_returns_result_object :
    (list_tools ((connect (mkClient "http://localhost:3000/mcp" MCPTransport.http
        (Option.some MCPAuth.bearer_token) (Option.some "sk-1234") 60)
        ConnectOutcome.ok).1) ConnectOutcome.ok []).2.2
      = Except.ok (ListToolsRet.resultObject []) ∧
    (Except.ok (ListToolsRet.resultObject ([] : List Tool))
      ≠ (Except.ok (ListToolsRet.tools []) : Except PyErr ListToolsRet)) ∧
    (list_tools ((connect (mkClient "http://localhost:3000/mcp" MCPTransport.http
        (Option.some MCPAuth.bearer_token) (Option.some "sk-1234") 60)
        ConnectOutcome.ok).1) ConnectOutcome.ok McpServerPy.list_tools).2.2
      = Except.ok (ListToolsRet.tools McpServerPy.list_tools) := by
  refine ⟨rfl, ?_, rfl⟩
  intro hco
  exact absurd (Except.ok.inj hco) (by intro hx; cases hx)

/-- Reachable-state well-formedness of the `connect`/`disconnect` API: a
channel in `_context` is open exactly when a session is live, and the
`__aenter__`-path handle is unused. -/
def WF (c : MCPClient) : Prop :=
  c.contextLive = c.sessionLive ∧ c.transportCtxLive = false

lemma boundedFrom_append (n : Int) (l1 l2 : List Effect) :
    boundedFrom n (l1 ++ l2)
      = (boundedFrom n l1 && boundedFrom (n + chanNet l1) l2) := by
  induction l1 generalizing n with
  | nil => simp [boundedFrom, chanNet]
  | cons e l ih =>
    by_cases h : 0 ≤ n + chanDelta e ∧ n + chanDelta e ≤ 1
    · have harith : n + chanDelta e + chanNet l = n + chanNet (e :: l) := by
        simp [chanNet]
        ring
      simp only [List.cons_append, boundedFrom, if_pos h]
      rw [← harith]
      exact ih (n + chanDelta e)
    · simp only [List.cons_append, boundedFrom, if_neg h, Bool.false_and]

lemma step_wf_bounded (c : MCPClient) (op : Op) (h : WF c) :
    WF (step c op).1 ∧ boundedFrom (chanOf c) (step c op).2 = true ∧
    chanOf (step c op).1 = chanOf c + chanNet (step c op).2 := by
  obtain ⟨h1, h2⟩ := h
  cases op with
  | connect o =>
    cases hs : c.sessionLive with
    | true =>
      have hc : c.contextLive = true := by rw [h1, hs]
      simp [step, connect, disconnect, WF, chanOf, chanNet, chanDelta, boundedFrom,
            hs, hc, h2]
    | false =>
      have hc : c.contextLive = false := by rw [h1, hs]
      cases o <;>
        simp [step, connect, disconnect, WF, chanOf, chanNet, chanDelta, boundedFrom,
              hs, hc, h2]
  | disconnect =>
    cases hs : c.sessionLive with
    | true =>
      have hc : c.contextLive = true := by rw [h1, hs]
      simp [step, disconnect, WF, chanOf, chanNet, chanDelta, boundedFrom, hs, hc, h2]
    | false =>
      have hc : c.contextLive = false := by rw [h1, hs]
      simp [step, disconnect, WF, chanOf, chanNet, chanDelta, boundedFrom, hs, hc, h2]
  | listTools o srv =>
    cases hs : c.sessionLive with
    | true =>
      have hc : c.contextLive = true := by rw [h1, hs]
      simp [step, AnotherClientPy.list_tools, connect, disconnect, WF, chanOf, chanNet,
            chanDelta, boundedFrom, hs, hc, h2]
    | false =>
      have hc : c.contextLive = false := by rw [h1, hs]
      cases o <;>
        simp [step, AnotherClientPy.list_tools, connect, disconnect, WF, chanOf, chanNet,
              chanDelta, boundedFrom, hs, hc, h2]
  | callTool o name remote =>
    cases hs : c.sessionLive with
    | true =>
      have hc : c.contextLive = true := by rw [h1, hs]
      simp [step, AnotherClientPy.call_tool, connect, disconnect, WF, chanOf, chanNet,
            chanDelta, boundedFrom, hs, hc, h2]
    | false =>
      have hc : c.contextLive = false := by rw [h1, hs]
      cases o <;>
        simp [step, AnotherClientPy.call_tool, connect, disconnect, WF, chanOf, chanNet,
              chanDelta, boundedFrom, hs, hc, h2]

lemma run_wf_bounded (ops : List Op) (c : MCPClient) (h : WF c) :
    boundedFrom (chanOf c) (run c ops).2 = true := by
  induction ops generalizing c with
  | nil => simp [run, boundedFrom]
  | cons op ops ih =>
    obtain ⟨hw, hb, hn⟩ := step_wf_bounded c op h
    have hrun : (run c (op :: ops)).2 = (step c op).2 ++ (run (step c op).1 ops).2 := rfl
    rw [hrun, boundedFrom_append, hb, ← hn, ih (step c op).1 hw]
    rfl

/-- C6: `connect()` on a client whose session is live returns immediately
with no effect and no error (no second channel open, no re-handshake);
consequently, along every operation sequence of the
`connect`/`disconnect`/`list_tools`/`call_tool` interface started from a
freshly constructed client, the number of open channels after every
single effect stays between 0 and 1 — the client never holds two
simultaneously open transport channels. -/
theorem connect_noop_when_live_single_channel (c : MCPClient) (o : ConnectOutcome)
    (url : String) (t : MCPTransport) (a : Option MCPAuth) (v : Option String)
    (to_ : Nat) (ops : List Op) (h : c.sessionLive = true) :
    connect c o = (c, [], Option.none) ∧
    boundedFrom 0 (run (mkClient url t a v to_) ops).2 = true := by
  constructor
  · simp [connect, h]
  · have hwf : WF (mkClient url t a v to_) := ⟨rfl, rfl⟩
    have := run_wf_bounded ops (mkClient url t a v to_) hwf
    simpa [chanOf, mkClient] using this

/-- Witness for C6: a connected client's second `connect` is a no-op, and
a concrete connect/list/disconnect/reconnect trace keeps at most one
channel open. -/
theorem connect_noop_when_live_single_channel_witness :
    connect ((connect (mkClient "http://localhost:3000/mcp" MCPTransport.http
        (Option.some MCPAuth.bearer_token) (Option.some "sk-1234") 60)
        ConnectOutcome.ok).1) ConnectOutcome.ok
      = (((connect (mkClient "http://localhost:3000/mcp" MCPTransport.http
          (Option.some MCPAuth.bearer_token) (Option.some "sk-1234") 60)
          ConnectOutcome.ok).1), [], Option.none) ∧
    boundedFrom 0 (run (mkClient "http://localhost:3000/mcp" MCPTransport.http
        (Option.some MCPAuth.bearer_token) (Option.some "sk-1234") 60)
        [Op.connect ConnectOutcome.ok, Op.connect ConnectOutcome.ok,
         Op.listTools ConnectOutcome.ok McpServerPy.list_tools, Op.disconnect,
         Op.disconnect, Op.connect ConnectOutcome.initFails,
         Op.callTool ConnectOutcome.ok "echo"
           (Except.ok { content := [Content.text "Echo: hi"], isError := false }),
         Op.disconnect]).2 = true :=
  connect_noop_when_live_single_channel _ ConnectOutcome.ok
    "http://localhost:3000/mcp" MCPTransport.http
    (Option.some MCPAuth.bearer_token) (Option.some "sk-1234") 60 _ rfl

end GoMcp
